import Mathlib

/-!
Verification development for the weather-dashboard utility modules
(src/storage-utils.js and src/chart-utils.js).

Modelling conventions for the shallow embedding:

* The browser localStorage substrate (an external collaborator) is a list of
  string cells keyed by strings, together with two booleans saying whether
  the substrate get respectively set operations succeed; when a boolean is
  false the corresponding substrate call throws in JavaScript, which the
  try/catch blocks of the source turn into logged fallbacks.
* JSON.stringify / JSON.parse (external library functions) are modelled by
  executable Lean functions over an inductive JSON value type.  JavaScript
  numbers are modelled as integers: no claim computes with numeric payloads.
* console.error / console.warn (the diagnostic sink) are modelled by lists
  of emitted messages returned alongside each result.
* JavaScript dynamic-type errors (calling toLowerCase on a non-string, or
  filter on a non-array) are modelled by Option: a none result corresponds
  to an uncaught TypeError.
-/

/-- JSON values, as produced by the modelled JSON.parse. -/
inductive JSValue where
  | null : JSValue
  | bool (b : Bool) : JSValue
  | num (n : Int) : JSValue
  | str (s : String) : JSValue
  | arr (xs : List JSValue) : JSValue
  | obj (fields : List (String × JSValue)) : JSValue

/-- Escaping of one character inside a JSON string literal
(models the escaping performed by JSON.stringify). -/
def escapeChar (c : Char) : String :=
  if c = '"' then "\\\""
  else if c = '\\' then "\\\\"
  else if c = '\n' then "\\n"
  else if c = '\t' then "\\t"
  else if c = '\r' then "\\r"
  else String.singleton c

/-- JSON serialization of a string (models JSON.stringify on strings). -/
def stringifyString (s : String) : String :=
  "\"" ++ String.join (s.data.map escapeChar) ++ "\""

/-- JSON serialization (models the external JSON.stringify). -/
def stringifyJSON : JSValue → String
  | JSValue.null => "null"
  | JSValue.bool b => cond b "true" "false"
  | JSValue.num n => toString n
  | JSValue.str s => stringifyString s
  | JSValue.arr xs =>
      "[" ++ String.intercalate "," (xs.attach.map (fun x => stringifyJSON x.1)) ++ "]"
  | JSValue.obj fs =>
      "\x7b" ++
        String.intercalate ","
          (fs.attach.map (fun f => stringifyString f.1.1 ++ ":" ++ stringifyJSON f.1.2)) ++
        "\x7d"
termination_by v => sizeOf v
decreasing_by
  all_goals simp_wf
  · have := List.sizeOf_lt_of_mem x.2
    omega
  · obtain ⟨⟨a, b⟩, hf⟩ := f
    have h1 := List.sizeOf_lt_of_mem hf
    simp at h1 ⊢
    omega

/-- Skip JSON whitespace. -/
def skipWs : List Char → List Char
  | [] => []
  | c :: cs => if c = ' ' ∨ c = '\n' ∨ c = '\t' ∨ c = '\r' then skipWs cs else c :: cs

/-- Parse the body of a JSON string literal after the opening quote,
returning the decoded string and the input after the closing quote. -/
def parseStringBody : Nat → List Char → Option (String × List Char)
  | 0, _ => none
  | _, [] => none
  | fuel + 1, c :: cs =>
    if c = '"' then some ("", cs)
    else if c = '\\' then
      match cs with
      | [] => none
      | e :: cs2 =>
        let esc : Option Char :=
          if e = '"' then some '"'
          else if e = '\\' then some '\\'
          else if e = '/' then some '/'
          else if e = 'n' then some '\n'
          else if e = 't' then some '\t'
          else if e = 'r' then some '\r'
          else none
        match esc with
        | none => none
        | some ch =>
          match parseStringBody fuel cs2 with
          | none => none
          | some r => some (String.mk (ch :: r.1.data), r.2)
    else
      match parseStringBody fuel cs with
      | none => none
      | some r => some (String.mk (c :: r.1.data), r.2)

/-- Take a maximal run of decimal digits. -/
def takeDigits : List Char → List Char × List Char
  | [] => ([], [])
  | c :: cs =>
    if c.isDigit then
      let r := takeDigits cs
      (c :: r.1, r.2)
    else ([], c :: cs)

/-- Digit run to natural number. -/
def digitsToNat (ds : List Char) : Nat :=
  ds.foldl (fun acc c => acc * 10 + (c.toNat - 48)) 0

mutual

/-- Recursive-descent parser for one JSON value (models the external
JSON.parse; numbers restricted to integers per the modelling convention). -/
def parseValue : Nat → List Char → Option (JSValue × List Char)
  | 0, _ => none
  | fuel + 1, input =>
    match skipWs input with
    | [] => none
    | c :: cs =>
      if c = '"' then
        match parseStringBody (fuel + 1) cs with
        | none => none
        | some r => some (JSValue.str r.1, r.2)
      else if c = '[' then
        match skipWs cs with
        | ']' :: rest => some (JSValue.arr [], rest)
        | other =>
          match parseItems fuel other with
          | none => none
          | some r => some (JSValue.arr r.1, r.2)
      else if c = '\x7b' then
        match skipWs cs with
        | '\x7d' :: rest => some (JSValue.obj [], rest)
        | other =>
          match parseFields fuel other with
          | none => none
          | some r => some (JSValue.obj r.1, r.2)
      else if c = 'n' then
        match cs with
        | 'u' :: 'l' :: 'l' :: rest => some (JSValue.null, rest)
        | _ => none
      else if c = 't' then
        match cs with
        | 'r' :: 'u' :: 'e' :: rest => some (JSValue.bool true, rest)
        | _ => none
      else if c = 'f' then
        match cs with
        | 'a' :: 'l' :: 's' :: 'e' :: rest => some (JSValue.bool false, rest)
        | _ => none
      else if c = '-' then
        match takeDigits cs with
        | ([], _) => none
        | (ds, rest) => some (JSValue.num (-(digitsToNat ds : Int)), rest)
      else if c.isDigit then
        match takeDigits (c :: cs) with
        | ([], _) => none
        | (ds, rest) => some (JSValue.num (digitsToNat ds : Int), rest)
      else none

/-- Parse the comma-separated items of a JSON array, consuming the
closing bracket. -/
def parseItems : Nat → List Char → Option (List JSValue × List Char)
  | 0, _ => none
  | fuel + 1, input =>
    match parseValue fuel input with
    | none => none
    | some (v, rest) =>
      match skipWs rest with
      | ',' :: rest2 =>
        match parseItems fuel rest2 with
        | none => none
        | some r => some (v :: r.1, r.2)
      | ']' :: rest2 => some ([v], rest2)
      | _ => none

/-- Parse the comma-separated fields of a JSON object, consuming the
closing brace. -/
def parseFields : Nat → List Char → Option (List (String × JSValue) × List Char)
  | 0, _ => none
  | fuel + 1, input =>
    match skipWs input with
    | '"' :: cs =>
      match parseStringBody (fuel + 1) cs with
      | none => none
      | some (key, rest) =>
        match skipWs rest with
        | ':' :: rest2 =>
          match parseValue fuel rest2 with
          | none => none
          | some (v, rest3) =>
            match skipWs rest3 with
            | ',' :: rest4 =>
              match parseFields fuel rest4 with
              | none => none
              | some r => some ((key, v) :: r.1, r.2)
            | '\x7d' :: rest4 => some ([(key, v)], rest4)
            | _ => none
        | _ => none
    | _ => none

end

/-- Top-level modelled JSON.parse: none models a thrown SyntaxError. -/
def parseJSON (s : String) : Option JSValue :=
  match parseValue (s.length + 1) s.data with
  | none => none
  | some (v, rest) =>
    match skipWs rest with
    | [] => some v
    | _ => none

/-- Association-list lookup by string key (models both reading a property
of a JavaScript object and localStorage.getItem). -/
def assocLookup {β : Type} (xs : List (String × β)) (k : String) : Option β :=
  match xs.find? (fun p => p.1 == k) with
  | some p => some p.2
  | none => none

/-- Association-list insert-or-replace (models assigning a property of a
JavaScript object and localStorage.setItem: an existing key keeps its
position, a new key is appended). -/
def assocInsert {β : Type} : List (String × β) → String → β → List (String × β)
  | [], k, v => [(k, v)]
  | p :: rest, k, v => if p.1 == k then (k, v) :: rest else p :: assocInsert rest k v

/-- Association-list removal of every pair with the given key (models the
JavaScript delete operator and localStorage.removeItem). -/
def assocRemove {β : Type} (xs : List (String × β)) (k : String) : List (String × β) :=
  xs.filter (fun p => p.1 != k)

/-- The browser localStorage substrate (external collaborator): raw string
cells plus flags telling whether the substrate get / set calls succeed
(false models the substrate throwing, e.g. storage disabled or quota
exceeded). -/
structure LocalStorage where
  cells : List (String × String)
  getOk : Bool
  setOk : Bool

/-- The namespaced storage key for the search history. -/
def KEYS.SEARCH_HISTORY : String := "weather_search_history"

/-- The namespaced storage key for the favorites collection. -/
def KEYS.FAVORITES : String := "weather_favorites"

/-- The namespaced storage key for the theme preference. -/
def KEYS.THEME : String := "weather_theme"

/-- The namespaced storage key for the unit preference. -/
def KEYS.UNIT : String := "weather_unit"

/-- StorageUtils.getItem: fetch the raw cell, parse it as JSON, fall back
to the default on a missing cell, an empty cell (falsy in JavaScript), a
parse error, or a throwing substrate.  The second component is the list of
messages sent to console.error. -/
def StorageUtils.getItem (ls : LocalStorage) (key : String) (defaultValue : JSValue) :
    JSValue × List String :=
  if ls.getOk then
    match assocLookup ls.cells key with
    | none => (defaultValue, [])
    | some item =>
      if item == "" then (defaultValue, [])
      else
        match parseJSON item with
        | some v => (v, [])
        | none => (defaultValue, ["Error reading " ++ key ++ " from localStorage"])
  else (defaultValue, ["Error reading " ++ key ++ " from localStorage"])

/-- StorageUtils.setItem: serialize the value and write it; on a throwing
substrate return false and log, leaving the cells unchanged.  Components:
updated substrate, returned boolean, console.error messages. -/
def StorageUtils.setItem (ls : LocalStorage) (key : String) (value : JSValue) :
    LocalStorage × Bool × List String :=
  if ls.setOk then
    (⟨assocInsert ls.cells key (stringifyJSON value), ls.getOk, ls.setOk⟩, true, [])
  else (ls, false, ["Error writing " ++ key ++ " to localStorage"])

/-- StorageUtils.getSearchHistory: getItem with default empty array. -/
def StorageUtils.getSearchHistory (ls : LocalStorage) : JSValue × List String :=
  StorageUtils.getItem ls KEYS.SEARCH_HISTORY (JSValue.arr [])

/-- View a parsed JSON value as a JavaScript array of strings; none models
the TypeError raised when the subsequent code calls toLowerCase on a
non-string element or filter on a non-array. -/
def decodeStrings : List JSValue → Option (List String)
  | [] => some []
  | JSValue.str s :: rest =>
    match decodeStrings rest with
    | none => none
    | some l => some (s :: l)
  | _ => none

/-- View a JSON value as an array of strings (see decodeStrings). -/
def decodeStringArray : JSValue → Option (List String)
  | JSValue.arr xs => decodeStrings xs
  | _ => none

/-- Encode a list of strings back into a JSON value. -/
def encodeStringList (l : List String) : JSValue :=
  JSValue.arr (l.map JSValue.str)

/-- Result of a derived StorageUtils mutator: the substrate afterwards, the
value returned to the caller, and the console messages emitted. -/
structure OpResult (α : Type) where
  store : LocalStorage
  value : α
  log : List String

/-- The JavaScript toLowerCase (models the external String method with
the ASCII lowering of the core Char.toLower; defined structurally so that
it evaluates inside the kernel). -/
def jsToLowerCase (s : String) : String :=
  String.mk (s.data.map Char.toLower)

/-- The pure list computation inlined in StorageUtils.addToSearchHistory:
prepend the city to the history with every case-insensitive duplicate
filtered out, then keep only the first 10 entries. -/
def updatedHistoryOf (history : List String) (city : String) : List String :=
  (city :: history.filter (fun item => jsToLowerCase item != jsToLowerCase city)).take 10

/-- StorageUtils.addToSearchHistory: read the history, dedupe and prepend
the city, truncate to 10, persist, and return the updated list (the
setItem boolean is discarded). -/
def StorageUtils.addToSearchHistory (ls : LocalStorage) (city : String) :
    Option (OpResult (List String)) :=
  match decodeStringArray (StorageUtils.getSearchHistory ls).1 with
  | none => none
  | some history =>
    let updatedHistory := updatedHistoryOf history city
    let r := StorageUtils.setItem ls KEYS.SEARCH_HISTORY (encodeStringList updatedHistory)
    some ⟨r.1, updatedHistory, (StorageUtils.getSearchHistory ls).2 ++ r.2.2⟩

/-- StorageUtils.clearSearchHistory: persist an empty array. -/
def StorageUtils.clearSearchHistory (ls : LocalStorage) : LocalStorage :=
  (StorageUtils.setItem ls KEYS.SEARCH_HISTORY (JSValue.arr [])).1

/-- A stored favorite location: the five fields written by addToFavorites. -/
structure Favorite where
  name : String
  country : String
  lat : Int
  lon : Int
  addedAt : String
deriving DecidableEq

/-- The location argument of addToFavorites (the fields the source reads). -/
structure Location where
  name : String
  country : String
  lat : Int
  lon : Int
deriving DecidableEq

/-- Look up a field of a parsed JSON object. -/
def jsField (fields : List (String × JSValue)) (k : String) : Option JSValue :=
  match fields.find? (fun p => p.1 == k) with
  | some p => some p.2
  | none => none

/-- View a JSON value as one favorite entry; none models a TypeError on a
malformed entry. -/
def decodeFavorite : JSValue → Option Favorite
  | JSValue.obj fs =>
    match jsField fs "name", jsField fs "country", jsField fs "lat",
        jsField fs "lon", jsField fs "addedAt" with
    | some (JSValue.str n), some (JSValue.str c), some (JSValue.num la),
        some (JSValue.num lo), some (JSValue.str t) => some ⟨n, c, la, lo, t⟩
    | _, _, _, _, _ => none
  | _ => none

/-- View a list of JSON values as favorite entries. -/
def decodeFavoriteList : List JSValue → Option (List Favorite)
  | [] => some []
  | v :: rest =>
    match decodeFavorite v, decodeFavoriteList rest with
    | some f, some l => some (f :: l)
    | _, _ => none

/-- View a JSON value as a favorites collection. -/
def decodeFavorites : JSValue → Option (List Favorite)
  | JSValue.arr xs => decodeFavoriteList xs
  | _ => none

/-- Encode one favorite entry as a JSON object, field order as written by
the source. -/
def encodeFavorite (f : Favorite) : JSValue :=
  JSValue.obj [("name", JSValue.str f.name), ("country", JSValue.str f.country),
    ("lat", JSValue.num f.lat), ("lon", JSValue.num f.lon),
    ("addedAt", JSValue.str f.addedAt)]

/-- Encode a favorites collection as a JSON array. -/
def encodeFavorites (l : List Favorite) : JSValue :=
  JSValue.arr (l.map encodeFavorite)

/-- StorageUtils.getFavorites: getItem with default empty array. -/
def StorageUtils.getFavorites (ls : LocalStorage) : JSValue × List String :=
  StorageUtils.getItem ls KEYS.FAVORITES (JSValue.arr [])

/-- Result object of addToFavorites: the success flag with either the
updated collection or the message, exactly the two object shapes the
source returns. -/
inductive AddFavResult where
  | success (favorites : List Favorite) : AddFavResult
  | failure (message : String) : AddFavResult
deriving DecidableEq

/-- StorageUtils.addToFavorites: if a favorite with the same lowercased
name exists, return the failure object and leave storage untouched;
otherwise append a new entry stamped with the current time (the
new Date toISOString value, passed here as the parameter now), persist,
and return the success object. -/
def StorageUtils.addToFavorites (ls : LocalStorage) (location : Location) (now : String) :
    Option (OpResult AddFavResult) :=
  match decodeFavorites (StorageUtils.getFavorites ls).1 with
  | none => none
  | some favorites =>
    let exists_ := favorites.any (fun fav => jsToLowerCase fav.name == jsToLowerCase location.name)
    if !exists_ then
      let updatedFavorites :=
        favorites ++ [⟨location.name, location.country, location.lat, location.lon, now⟩]
      let r := StorageUtils.setItem ls KEYS.FAVORITES (encodeFavorites updatedFavorites)
      some ⟨r.1, AddFavResult.success updatedFavorites, (StorageUtils.getFavorites ls).2 ++ r.2.2⟩
    else
      some ⟨ls, AddFavResult.failure "Location already in favorites",
        (StorageUtils.getFavorites ls).2⟩

/-- StorageUtils.removeFromFavorites: filter out every favorite whose
lowercased name equals the lowercased argument, persist, return the
filtered collection. -/
def StorageUtils.removeFromFavorites (ls : LocalStorage) (locationName : String) :
    Option (OpResult (List Favorite)) :=
  match decodeFavorites (StorageUtils.getFavorites ls).1 with
  | none => none
  | some favorites =>
    let updatedFavorites :=
      favorites.filter (fun fav => jsToLowerCase fav.name != jsToLowerCase locationName)
    let r := StorageUtils.setItem ls KEYS.FAVORITES (encodeFavorites updatedFavorites)
    some ⟨r.1, updatedFavorites, (StorageUtils.getFavorites ls).2 ++ r.2.2⟩

/-- StorageUtils.isFavorite: case-insensitive membership test on the
stored collection. -/
def StorageUtils.isFavorite (ls : LocalStorage) (locationName : String) : Option Bool :=
  match decodeFavorites (StorageUtils.getFavorites ls).1 with
  | none => none
  | some favorites =>
    some (favorites.any (fun fav => jsToLowerCase fav.name == jsToLowerCase locationName))

/-- StorageUtils.getTheme: getItem with default the string light. -/
def StorageUtils.getTheme (ls : LocalStorage) : JSValue × List String :=
  StorageUtils.getItem ls KEYS.THEME (JSValue.str "light")

/-- StorageUtils.setTheme: setItem under the theme key (the source
discards the setItem boolean and returns undefined; the updated substrate
is the state effect). -/
def StorageUtils.setTheme (ls : LocalStorage) (theme : String) : LocalStorage :=
  (StorageUtils.setItem ls KEYS.THEME (JSValue.str theme)).1

/-- StorageUtils.getUnit: getItem with default the string celsius. -/
def StorageUtils.getUnit (ls : LocalStorage) : JSValue × List String :=
  StorageUtils.getItem ls KEYS.UNIT (JSValue.str "celsius")

/-- StorageUtils.setUnit: setItem under the unit key. -/
def StorageUtils.setUnit (ls : LocalStorage) (unit : String) : LocalStorage :=
  (StorageUtils.setItem ls KEYS.UNIT (JSValue.str unit)).1

/-- StorageUtils.clearAll: remove the four keys from the substrate. -/
def StorageUtils.clearAll (ls : LocalStorage) : LocalStorage :=
  ⟨[KEYS.SEARCH_HISTORY, KEYS.FAVORITES, KEYS.THEME, KEYS.UNIT].foldl assocRemove ls.cells,
    ls.getOk, ls.setOk⟩

/-- The byte size the source computes for one key: the Blob size (UTF-8
byte length) of the raw cell, 0 when the cell is absent or the empty
string (falsy in JavaScript). -/
def rawSize (ls : LocalStorage) (key : String) : Nat :=
  match assocLookup ls.cells key with
  | some item => if item == "" then 0 else item.utf8ByteSize
  | none => 0

/-- The toFixed 2 rendering of size divided by 1024, as hundredths of a
kibibyte: round half up of size times 100 over 1024.  The quotient is
exactly representable as a double for every realistic size, so the
JavaScript computation agrees with this exact rational rounding. -/
def toFixed2KiB (size : Nat) : Nat :=
  (size * 200 + 1024) / 2048

/-- Per-key entry of getStorageStats. -/
structure KeyStats where
  size : Nat
  sizeKB : Nat
deriving DecidableEq

/-- Return value of getStorageStats. -/
structure StorageStats where
  individual : List (String × KeyStats)
  total : Nat
  totalKB : Nat
deriving DecidableEq

/-- StorageUtils.getStorageStats: for each of the four keys, the byte size
of the raw cell and its kibibyte rendering, plus the running total.  This
function reads the substrate directly with no try/catch, so a throwing
substrate propagates: none models that uncaught exception. -/
def StorageUtils.getStorageStats (ls : LocalStorage) : Option StorageStats :=
  if ls.getOk then
    let entries := [("SEARCH_HISTORY", KEYS.SEARCH_HISTORY), ("FAVORITES", KEYS.FAVORITES),
      ("THEME", KEYS.THEME), ("UNIT", KEYS.UNIT)]
    let stats := entries.map (fun e => (e.1, KeyStats.mk (rawSize ls e.2) (toFixed2KiB (rawSize ls e.2))))
    let totalSize := entries.foldl (fun acc e => acc + rawSize ls e.2) 0
    some ⟨stats, totalSize, toFixed2KiB totalSize⟩
  else none

/-- One forecast day as consumed by the chart builders (the fields the
source reads; precipitation may be missing). -/
structure ForecastDay where
  date : String
  maxTemp : Int
  minTemp : Int
  avgTemp : Int
  humidity : Int
  precipitation : Option Int
  windSpeed : Int
deriving DecidableEq

/-- The data part of a chart configuration handed to the external engine:
chart type, category labels, and the named series extracted from the
forecast.  Style options (colors, fonts, axes) are presentation payload
handed verbatim to the external engine and carried here only through the
dark-mode flag that selects between the two palettes. -/
structure ChartConfig where
  chartType : String
  labels : List String
  datasets : List (String × List Int)
  isDarkMode : Bool
deriving DecidableEq

/-- Interactions with the external collaborators of ChartUtils: handle
creation and release by the rendering engine, animated updates, and the
console diagnostic sink. -/
inductive ChartEvent where
  | engineCreate (handle : Nat) (config : ChartConfig) : ChartEvent
  | engineDestroy (handle : Nat) : ChartEvent
  | engineUpdate (handle : Nat) : ChartEvent
  | consoleError (msg : String) : ChartEvent
  | consoleWarn (msg : String) : ChartEvent
deriving DecidableEq

/-- ChartUtils module state: the chartInstances registry mapping a canvas
id to the live engine handle, plus the counter the modelled engine uses to
allocate fresh handle identities. -/
structure ChartUtilsState where
  chartInstances : List (String × Nat)
  nextId : Nat
deriving DecidableEq

/-- The configuration built by createTemperatureChart: a line chart with
the max, average and min temperature series over the dates. -/
def temperatureConfig (forecastData : List ForecastDay) (isDarkMode : Bool) : ChartConfig :=
  ⟨"line", forecastData.map (fun day => day.date),
    [("Max Temperature", forecastData.map (fun day => day.maxTemp)),
     ("Average Temperature", forecastData.map (fun day => day.avgTemp)),
     ("Min Temperature", forecastData.map (fun day => day.minTemp))],
    isDarkMode⟩

/-- The configuration built by createHumidityChart: a bar chart carrying
the humidity series and the precipitation series (missing precipitation
coerced to 0 by the falsy-or). -/
def humidityConfig (forecastData : List ForecastDay) (isDarkMode : Bool) : ChartConfig :=
  ⟨"bar", forecastData.map (fun day => day.date),
    [("Humidity (%)", forecastData.map (fun day => day.humidity)),
     ("Precipitation (mm)", forecastData.map (fun day => day.precipitation.getD 0))],
    isDarkMode⟩

/-- The configuration built by createWindChart: a line chart with the
wind-speed series. -/
def windConfig (forecastData : List ForecastDay) (isDarkMode : Bool) : ChartConfig :=
  ⟨"line", forecastData.map (fun day => day.date),
    [("Wind Speed (km/h)", forecastData.map (fun day => day.windSpeed))],
    isDarkMode⟩

/-- Shared tail of the three create functions once the drawing surface was
resolved: destroy a pre-existing handle under the id, obtain a fresh
handle from the engine for the given configuration, store and return it. -/
def createChartCommon (st : ChartUtilsState) (canvasId : String) (config : ChartConfig) :
    ChartUtilsState × Option Nat × List ChartEvent :=
  let destroyEvents :=
    match assocLookup st.chartInstances canvasId with
    | some h => [ChartEvent.engineDestroy h]
    | none => []
  let h := st.nextId
  (⟨assocInsert st.chartInstances canvasId h, st.nextId + 1⟩, some h,
    destroyEvents ++ [ChartEvent.engineCreate h config])

/-- ChartUtils.createTemperatureChart: resolve the canvas by id (dom is
the set of element ids the document holds); when absent, log an error and
return null; otherwise destroy any existing chart under the id, then
create and register the new one. -/
def ChartUtils.createTemperatureChart (dom : List String) (st : ChartUtilsState)
    (canvasId : String) (forecastData : List ForecastDay) (isDarkMode : Bool) :
    ChartUtilsState × Option Nat × List ChartEvent :=
  if !(dom.contains canvasId) then
    (st, none, [ChartEvent.consoleError ("Canvas element " ++ canvasId ++ " not found")])
  else
    createChartCommon st canvasId (temperatureConfig forecastData isDarkMode)

/-- ChartUtils.createHumidityChart: same lifecycle, but on an absent
canvas it returns null silently, with no console message. -/
def ChartUtils.createHumidityChart (dom : List String) (st : ChartUtilsState)
    (canvasId : String) (forecastData : List ForecastDay) (isDarkMode : Bool) :
    ChartUtilsState × Option Nat × List ChartEvent :=
  if !(dom.contains canvasId) then (st, none, [])
  else
    createChartCommon st canvasId (humidityConfig forecastData isDarkMode)

/-- ChartUtils.createWindChart: same lifecycle, but on an absent canvas it
returns null silently, with no console message. -/
def ChartUtils.createWindChart (dom : List String) (st : ChartUtilsState)
    (canvasId : String) (forecastData : List ForecastDay) (isDarkMode : Bool) :
    ChartUtilsState × Option Nat × List ChartEvent :=
  if !(dom.contains canvasId) then (st, none, [])
  else
    createChartCommon st canvasId (windConfig forecastData isDarkMode)

/-- ChartUtils.updateChart: when no handle is registered under the id,
warn and do nothing; otherwise hand the new data to the existing handle
and request an animated redraw. -/
def ChartUtils.updateChart (st : ChartUtilsState) (canvasId : String) :
    ChartUtilsState × List ChartEvent :=
  match assocLookup st.chartInstances canvasId with
  | none => (st, [ChartEvent.consoleWarn ("No chart found with id: " ++ canvasId)])
  | some h => (st, [ChartEvent.engineUpdate h])

/-- ChartUtils.destroyChart: when a handle is registered under the id,
destroy it and delete the registry entry; otherwise do nothing. -/
def ChartUtils.destroyChart (st : ChartUtilsState) (canvasId : String) :
    ChartUtilsState × List ChartEvent :=
  match assocLookup st.chartInstances canvasId with
  | some h =>
    (⟨assocRemove st.chartInstances canvasId, st.nextId⟩, [ChartEvent.engineDestroy h])
  | none => (st, [])

/-- ChartUtils.destroyAllCharts: destroyChart on every registered id. -/
def ChartUtils.destroyAllCharts (st : ChartUtilsState) : ChartUtilsState × List ChartEvent :=
  (st.chartInstances.map (fun p => p.1)).foldl
    (fun acc id =>
      let r := ChartUtils.destroyChart acc.1 id
      (r.1, acc.2 ++ r.2))
    (st, [])

/-- Registry well-formedness: at most one entry per canvas id. -/
def registryWF (st : ChartUtilsState) : Prop :=
  (st.chartInstances.map (fun p => p.1)).Nodup

theorem assocLookup_cons {β : Type} (p : String × β) (rest : List (String × β)) (k : String) :
    assocLookup (p :: rest) k = if p.1 == k then some p.2 else assocLookup rest k := by
  by_cases h : p.1 == k
  · simp [assocLookup, List.find?_cons_of_pos, h]
  · simp [assocLookup, List.find?_cons_of_neg, h]

theorem assocLookup_insert_self {β : Type} (xs : List (String × β)) (k : String) (v : β) :
    assocLookup (assocInsert xs k v) k = some v := by
  induction xs with
  | nil => simp [assocInsert, assocLookup, List.find?]
  | cons p rest ih =>
    by_cases h : p.1 == k
    · simp [assocInsert, h, assocLookup_cons]
    · simp [assocInsert, h, assocLookup_cons, ih]

/-- Claim C1: addToSearchHistory returns a sequence in which exactly one
entry matches the city case-insensitively, that entry is the literal
argument positioned first, and every prior entry matching ignoring case
has been removed (every tail entry comes from the prior history and does
not match). -/
theorem C1_addToSearchHistory_dedup (ls : LocalStorage) (city : String) (h : List String)
    (hdec : decodeStringArray (StorageUtils.getSearchHistory ls).1 = some h) :
    ∃ res : OpResult (List String), StorageUtils.addToSearchHistory ls city = some res ∧
      res.value.head? = some city ∧
      res.value.countP (fun e => jsToLowerCase e == jsToLowerCase city) = 1 ∧
      ∀ e ∈ res.value.tail, e ∈ h ∧ jsToLowerCase e ≠ jsToLowerCase city := by
  have heq : StorageUtils.addToSearchHistory ls city =
      some ⟨(StorageUtils.setItem ls KEYS.SEARCH_HISTORY
          (encodeStringList (updatedHistoryOf h city))).1,
        updatedHistoryOf h city,
        (StorageUtils.getSearchHistory ls).2 ++
          (StorageUtils.setItem ls KEYS.SEARCH_HISTORY
            (encodeStringList (updatedHistoryOf h city))).2.2⟩ := by
    simp only [StorageUtils.addToSearchHistory, hdec]
  refine ⟨_, heq, ?_, ?_, ?_⟩ <;>
    simp only [updatedHistoryOf, List.take_succ_cons]
  · rfl
  · rw [List.countP_cons]
    have hzero : ((h.filter (fun item => jsToLowerCase item != jsToLowerCase city)).take 9).countP
        (fun e => jsToLowerCase e == jsToLowerCase city) = 0 := by
      rw [List.countP_eq_zero]
      intro a ha
      have hmem := List.mem_filter.mp (List.take_subset _ _ ha)
      simp only [bne_iff_ne, ne_eq] at hmem
      simp [hmem.2]
    simp [hzero]
  · intro e he
    simp only [List.tail_cons] at he
    have hmem := List.mem_filter.mp (List.take_subset _ _ he)
    simp only [bne_iff_ne, ne_eq] at hmem
    exact hmem

/-- Witness for C1 at a concrete store holding a two-entry history. -/
theorem C1_witness :
    ∃ res : OpResult (List String),
      StorageUtils.addToSearchHistory
        ⟨[(KEYS.SEARCH_HISTORY, "[\"Paris\",\"Rome\"]")], true, true⟩ "paris" = some res ∧
      res.value.head? = some "paris" ∧
      res.value.countP (fun e => jsToLowerCase e == jsToLowerCase "paris") = 1 ∧
      ∀ e ∈ res.value.tail, e ∈ ["Paris", "Rome"] ∧ jsToLowerCase e ≠ jsToLowerCase "paris" :=
  C1_addToSearchHistory_dedup _ "paris" ["Paris", "Rome"] (by decide)

/-- Claim C2: the sequence returned and persisted by addToSearchHistory
has length at most 10, and inserting a city that matches no entry of a
full history of 10 drops exactly the last entry. -/
theorem C2_addToSearchHistory_maxLen (ls : LocalStorage) (city : String) (h : List String)
    (hdec : decodeStringArray (StorageUtils.getSearchHistory ls).1 = some h) :
    ∃ res : OpResult (List String), StorageUtils.addToSearchHistory ls city = some res ∧
      res.value.length ≤ 10 ∧
      (ls.setOk = true →
        assocLookup res.store.cells KEYS.SEARCH_HISTORY =
          some (stringifyJSON (encodeStringList res.value))) ∧
      (h.length = 10 → (∀ e ∈ h, jsToLowerCase e ≠ jsToLowerCase city) →
        res.value = city :: h.take 9) := by
  have heq : StorageUtils.addToSearchHistory ls city =
      some ⟨(StorageUtils.setItem ls KEYS.SEARCH_HISTORY
          (encodeStringList (updatedHistoryOf h city))).1,
        updatedHistoryOf h city,
        (StorageUtils.getSearchHistory ls).2 ++
          (StorageUtils.setItem ls KEYS.SEARCH_HISTORY
            (encodeStringList (updatedHistoryOf h city))).2.2⟩ := by
    simp only [StorageUtils.addToSearchHistory, hdec]
  refine ⟨_, heq, ?_, ?_, ?_⟩
  · simp only [updatedHistoryOf, List.length_take]
    omega
  · intro hset
    simp only [StorageUtils.setItem, hset, if_true]
    exact assocLookup_insert_self _ _ _
  · intro _ hdistinct
    have hfil : h.filter (fun item => jsToLowerCase item != jsToLowerCase city) = h := by
      rw [List.filter_eq_self]
      intro a ha
      simp [bne_iff_ne, hdistinct a ha]
    simp [updatedHistoryOf, hfil, List.take_succ_cons]

/-- Witness for C2 at a full history of 10 distinct cities. -/
theorem C2_witness :
    ∃ res : OpResult (List String),
      StorageUtils.addToSearchHistory
        ⟨[(KEYS.SEARCH_HISTORY,
            "[\"a1\",\"a2\",\"a3\",\"a4\",\"a5\",\"a6\",\"a7\",\"a8\",\"a9\",\"a10\"]")],
          true, true⟩ "b" = some res ∧
      res.value.length ≤ 10 ∧
      (true = true →
        assocLookup res.store.cells KEYS.SEARCH_HISTORY =
          some (stringifyJSON (encodeStringList res.value))) ∧
      (["a1", "a2", "a3", "a4", "a5", "a6", "a7", "a8", "a9", "a10"].length = 10 →
        (∀ e ∈ ["a1", "a2", "a3", "a4", "a5", "a6", "a7", "a8", "a9", "a10"],
          jsToLowerCase e ≠ jsToLowerCase "b") →
        res.value = "b" :: ["a1", "a2", "a3", "a4", "a5", "a6", "a7", "a8", "a9", "a10"].take 9) :=
  C2_addToSearchHistory_maxLen _ "b"
    ["a1", "a2", "a3", "a4", "a5", "a6", "a7", "a8", "a9", "a10"] (by decide)

/-- Claim C3: when the collection already holds an entry whose name equals
the name of the location case-insensitively, addToFavorites returns the
failure object carrying the descriptive message and leaves the substrate
untouched; otherwise it returns the success object carrying the collection
with a new entry stamped with the current time appended, and persists it. -/
theorem C3_addToFavorites_spec (ls : LocalStorage) (location : Location) (now : String)
    (favs : List Favorite)
    (hdec : decodeFavorites (StorageUtils.getFavorites ls).1 = some favs) :
    (favs.any (fun fav => jsToLowerCase fav.name == jsToLowerCase location.name) = true →
       StorageUtils.addToFavorites ls location now =
         some ⟨ls, AddFavResult.failure "Location already in favorites",
           (StorageUtils.getFavorites ls).2⟩) ∧
    (favs.any (fun fav => jsToLowerCase fav.name == jsToLowerCase location.name) = false →
       ∃ res : OpResult AddFavResult, StorageUtils.addToFavorites ls location now = some res ∧
         res.value = AddFavResult.success
           (favs ++ [⟨location.name, location.country, location.lat, location.lon, now⟩]) ∧
         (ls.setOk = true →
           assocLookup res.store.cells KEYS.FAVORITES =
             some (stringifyJSON (encodeFavorites
               (favs ++ [⟨location.name, location.country, location.lat, location.lon, now⟩]))))) := by
  constructor
  · intro hany
    simp only [StorageUtils.addToFavorites, hdec, hany]
    rfl
  · intro hany
    refine ⟨_, by simp only [StorageUtils.addToFavorites, hdec, hany]; rfl, rfl, ?_⟩
    intro hset
    simp only [StorageUtils.setItem, hset, if_true]
    exact assocLookup_insert_self _ _ _

/-- Witness for C3: the stored favorite Paris blocks adding paris, and a
fresh name is appended. -/
theorem C3_witness :
    (([⟨"Paris", "FR", 48, 2, "t0"⟩] : List Favorite).any
        (fun fav => jsToLowerCase fav.name == jsToLowerCase ("paris" : String)) = true →
      StorageUtils.addToFavorites
          ⟨[(KEYS.FAVORITES,
              "[\x7b\"name\":\"Paris\",\"country\":\"FR\",\"lat\":48,\"lon\":2,\"addedAt\":\"t0\"\x7d]")],
            true, true⟩ ⟨"paris", "FR", 48, 2⟩ "t1" =
        some ⟨⟨[(KEYS.FAVORITES,
              "[\x7b\"name\":\"Paris\",\"country\":\"FR\",\"lat\":48,\"lon\":2,\"addedAt\":\"t0\"\x7d]")],
            true, true⟩, AddFavResult.failure "Location already in favorites",
          (StorageUtils.getFavorites
            ⟨[(KEYS.FAVORITES,
                "[\x7b\"name\":\"Paris\",\"country\":\"FR\",\"lat\":48,\"lon\":2,\"addedAt\":\"t0\"\x7d]")],
              true, true⟩).2⟩) ∧
    (([⟨"Paris", "FR", 48, 2, "t0"⟩] : List Favorite).any
        (fun fav => jsToLowerCase fav.name == jsToLowerCase ("paris" : String)) = false →
      ∃ res : OpResult AddFavResult,
        StorageUtils.addToFavorites
            ⟨[(KEYS.FAVORITES,
                "[\x7b\"name\":\"Paris\",\"country\":\"FR\",\"lat\":48,\"lon\":2,\"addedAt\":\"t0\"\x7d]")],
              true, true⟩ ⟨"paris", "FR", 48, 2⟩ "t1" = some res ∧
        res.value = AddFavResult.success
          ([⟨"Paris", "FR", 48, 2, "t0"⟩] ++ [⟨"paris", "FR", 48, 2, "t1"⟩]) ∧
        (true = true →
          assocLookup res.store.cells KEYS.FAVORITES =
            some (stringifyJSON (encodeFavorites
              ([⟨"Paris", "FR", 48, 2, "t0"⟩] ++ [⟨"paris", "FR", 48, 2, "t1"⟩]))))) :=
  C3_addToFavorites_spec _ ⟨"paris", "FR", 48, 2⟩ "t1" [⟨"Paris", "FR", 48, 2, "t0"⟩] (by decide)

/-- Claim C4: removeFromFavorites returns and persists the collection with
every case-insensitive name match removed; the result contains no match,
the call is a no-op on a collection without a match (in particular on the
empty collection), it is idempotent, and a healthy store reports nothing. -/
theorem C4_removeFromFavorites_spec (ls : LocalStorage) (locationName : String)
    (favs : List Favorite)
    (hdec : decodeFavorites (StorageUtils.getFavorites ls).1 = some favs) :
    ∃ res : OpResult (List Favorite),
      StorageUtils.removeFromFavorites ls locationName = some res ∧
      res.value = favs.filter (fun fav => jsToLowerCase fav.name != jsToLowerCase locationName) ∧
      (∀ f ∈ res.value, jsToLowerCase f.name ≠ jsToLowerCase locationName) ∧
      ((∀ f ∈ favs, jsToLowerCase f.name ≠ jsToLowerCase locationName) → res.value = favs) ∧
      (favs = [] → res.value = []) ∧
      res.value.filter (fun fav => jsToLowerCase fav.name != jsToLowerCase locationName) = res.value ∧
      (ls.setOk = true →
        assocLookup res.store.cells KEYS.FAVORITES =
          some (stringifyJSON (encodeFavorites res.value))) ∧
      (ls.setOk = true → (StorageUtils.getFavorites ls).2 = [] → res.log = []) := by
  have heq : StorageUtils.removeFromFavorites ls locationName =
      some ⟨(StorageUtils.setItem ls KEYS.FAVORITES (encodeFavorites
          (favs.filter (fun fav => jsToLowerCase fav.name != jsToLowerCase locationName)))).1,
        favs.filter (fun fav => jsToLowerCase fav.name != jsToLowerCase locationName),
        (StorageUtils.getFavorites ls).2 ++
          (StorageUtils.setItem ls KEYS.FAVORITES (encodeFavorites
            (favs.filter (fun fav => jsToLowerCase fav.name != jsToLowerCase locationName)))).2.2⟩ := by
    simp only [StorageUtils.removeFromFavorites, hdec]
  refine ⟨_, heq, rfl, ?_, ?_, ?_, ?_, ?_, ?_⟩
  · intro f hf
    have := (List.mem_filter.mp hf).2
    simpa [bne_iff_ne] using this
  · intro hnone
    rw [List.filter_eq_self]
    intro a ha
    simp [bne_iff_ne, hnone a ha]
  · intro hnil
    simp [hnil]
  · rw [List.filter_eq_self]
    intro a ha
    exact (List.mem_filter.mp ha).2
  · intro hset
    simp only [StorageUtils.setItem, hset, if_true]
    exact assocLookup_insert_self _ _ _
  · intro hset hlog
    simp [StorageUtils.setItem, hset, hlog]

/-- Witness for C4: removing TOKYO from the stored collection holding
Tokyo empties it (the scenario of the spec). -/
theorem C4_witness :
    ∃ res : OpResult (List Favorite),
      StorageUtils.removeFromFavorites
          ⟨[(KEYS.FAVORITES,
              "[\x7b\"name\":\"Tokyo\",\"country\":\"JP\",\"lat\":35,\"lon\":139,\"addedAt\":\"t0\"\x7d]")],
            true, true⟩ "TOKYO" = some res ∧
      res.value = ([⟨"Tokyo", "JP", 35, 139, "t0"⟩] : List Favorite).filter
        (fun fav => jsToLowerCase fav.name != jsToLowerCase ("TOKYO" : String)) ∧
      (∀ f ∈ res.value, jsToLowerCase f.name ≠ jsToLowerCase ("TOKYO" : String)) ∧
      ((∀ f ∈ ([⟨"Tokyo", "JP", 35, 139, "t0"⟩] : List Favorite),
          jsToLowerCase f.name ≠ jsToLowerCase ("TOKYO" : String)) →
        res.value = [⟨"Tokyo", "JP", 35, 139, "t0"⟩]) ∧
      (([⟨"Tokyo", "JP", 35, 139, "t0"⟩] : List Favorite) = [] → res.value = []) ∧
      res.value.filter (fun fav => jsToLowerCase fav.name != jsToLowerCase ("TOKYO" : String)) = res.value ∧
      (true = true →
        assocLookup res.store.cells KEYS.FAVORITES =
          some (stringifyJSON (encodeFavorites res.value))) ∧
      (true = true →
        (StorageUtils.getFavorites
          ⟨[(KEYS.FAVORITES,
              "[\x7b\"name\":\"Tokyo\",\"country\":\"JP\",\"lat\":35,\"lon\":139,\"addedAt\":\"t0\"\x7d]")],
            true, true⟩).2 = [] → res.log = []) :=
  C4_removeFromFavorites_spec _ "TOKYO" [⟨"Tokyo", "JP", 35, 139, "t0"⟩] (by decide)

/-- Claim C5 (amended): getItem always returns a value; a missing key
yields the default silently, while a malformed cell or a throwing
substrate yields the default together with a report to the diagnostic
sink, and a well-formed non-empty cell yields its parsed value. -/
theorem C5_getItem_error_handling (ls : LocalStorage) (key : String) (defaultValue : JSValue) :
    (ls.getOk = false →
      StorageUtils.getItem ls key defaultValue =
        (defaultValue, ["Error reading " ++ key ++ " from localStorage"])) ∧
    (ls.getOk = true → assocLookup ls.cells key = none →
      StorageUtils.getItem ls key defaultValue = (defaultValue, [])) ∧
    (∀ item, ls.getOk = true → assocLookup ls.cells key = some item → (item == "") = false →
      parseJSON item = none →
      StorageUtils.getItem ls key defaultValue =
        (defaultValue, ["Error reading " ++ key ++ " from localStorage"])) ∧
    (∀ item v, ls.getOk = true → assocLookup ls.cells key = some item → (item == "") = false →
      parseJSON item = some v →
      StorageUtils.getItem ls key defaultValue = (v, [])) := by
  refine ⟨?_, ?_, ?_, ?_⟩
  · intro hg
    simp [StorageUtils.getItem, hg]
  · intro hg hk
    simp [StorageUtils.getItem, hg, hk]
  · intro item hg hk hne hp
    simp [StorageUtils.getItem, hg, hk, hne, hp]
  · intro item v hg hk hne hp
    simp [StorageUtils.getItem, hg, hk, hne, hp]

/-- Counterexample to claim C5 as stated: a missing key is one of the
failures the claim lists, yet getItem returns the default with an empty
diagnostic log, so this failure is not reported to the diagnostic sink. -/
theorem C5_counterexample :
    StorageUtils.getItem ⟨[], true, true⟩ "weather_theme" (JSValue.str "light") =
      (JSValue.str "light", []) := rfl

/-- Witness for C5 at a malformed cell: the default comes back and the
failure is reported. -/
theorem C5_witness :
    StorageUtils.getItem ⟨[("weather_theme", "\x7boops")], true, true⟩ "weather_theme"
        JSValue.null =
      (JSValue.null, ["Error reading weather_theme from localStorage"]) :=
  (C5_getItem_error_handling ⟨[("weather_theme", "\x7boops")], true, true⟩ "weather_theme"
    JSValue.null).2.2.1 "\x7boops" rfl (by decide) (by decide) (by rfl)

/-- Claim C8: getStorageStats returns, for each of the four keys, the byte
size of its stored raw form together with its two-decimal kibibyte
rendering, and a grand total equal to the sum of the four sizes; an
absent key contributes size 0. -/
theorem C8_getStorageStats_total (ls : LocalStorage) (hget : ls.getOk = true) :
    StorageUtils.getStorageStats ls = some
      ⟨[("SEARCH_HISTORY", ⟨rawSize ls KEYS.SEARCH_HISTORY,
          toFixed2KiB (rawSize ls KEYS.SEARCH_HISTORY)⟩),
        ("FAVORITES", ⟨rawSize ls KEYS.FAVORITES, toFixed2KiB (rawSize ls KEYS.FAVORITES)⟩),
        ("THEME", ⟨rawSize ls KEYS.THEME, toFixed2KiB (rawSize ls KEYS.THEME)⟩),
        ("UNIT", ⟨rawSize ls KEYS.UNIT, toFixed2KiB (rawSize ls KEYS.UNIT)⟩)],
        rawSize ls KEYS.SEARCH_HISTORY + rawSize ls KEYS.FAVORITES + rawSize ls KEYS.THEME +
          rawSize ls KEYS.UNIT,
        toFixed2KiB (rawSize ls KEYS.SEARCH_HISTORY + rawSize ls KEYS.FAVORITES +
          rawSize ls KEYS.THEME + rawSize ls KEYS.UNIT)⟩ ∧
    ∀ key, assocLookup ls.cells key = none → rawSize ls key = 0 := by
  constructor
  · simp only [StorageUtils.getStorageStats, hget, if_true, List.map_cons, List.map_nil,
      List.foldl_cons, List.foldl_nil]
    rw [Nat.zero_add]
  · intro key hk
    simp [rawSize, hk]

/-- Witness for C8 at a store holding only a theme cell. -/
theorem C8_witness :
    StorageUtils.getStorageStats ⟨[(KEYS.THEME, "\"dark\"")], true, true⟩ = some
      ⟨[("SEARCH_HISTORY", ⟨rawSize ⟨[(KEYS.THEME, "\"dark\"")], true, true⟩ KEYS.SEARCH_HISTORY,
          toFixed2KiB (rawSize ⟨[(KEYS.THEME, "\"dark\"")], true, true⟩ KEYS.SEARCH_HISTORY)⟩),
        ("FAVORITES", ⟨rawSize ⟨[(KEYS.THEME, "\"dark\"")], true, true⟩ KEYS.FAVORITES,
          toFixed2KiB (rawSize ⟨[(KEYS.THEME, "\"dark\"")], true, true⟩ KEYS.FAVORITES)⟩),
        ("THEME", ⟨rawSize ⟨[(KEYS.THEME, "\"dark\"")], true, true⟩ KEYS.THEME,
          toFixed2KiB (rawSize ⟨[(KEYS.THEME, "\"dark\"")], true, true⟩ KEYS.THEME)⟩),
        ("UNIT", ⟨rawSize ⟨[(KEYS.THEME, "\"dark\"")], true, true⟩ KEYS.UNIT,
          toFixed2KiB (rawSize ⟨[(KEYS.THEME, "\"dark\"")], true, true⟩ KEYS.UNIT)⟩)],
        rawSize ⟨[(KEYS.THEME, "\"dark\"")], true, true⟩ KEYS.SEARCH_HISTORY +
          rawSize ⟨[(KEYS.THEME, "\"dark\"")], true, true⟩ KEYS.FAVORITES +
          rawSize ⟨[(KEYS.THEME, "\"dark\"")], true, true⟩ KEYS.THEME +
          rawSize ⟨[(KEYS.THEME, "\"dark\"")], true, true⟩ KEYS.UNIT,
        toFixed2KiB (rawSize ⟨[(KEYS.THEME, "\"dark\"")], true, true⟩ KEYS.SEARCH_HISTORY +
          rawSize ⟨[(KEYS.THEME, "\"dark\"")], true, true⟩ KEYS.FAVORITES +
          rawSize ⟨[(KEYS.THEME, "\"dark\"")], true, true⟩ KEYS.THEME +
          rawSize ⟨[(KEYS.THEME, "\"dark\"")], true, true⟩ KEYS.UNIT)⟩ ∧
    ∀ key, assocLookup (⟨[(KEYS.THEME, "\"dark\"")], true, true⟩ : LocalStorage).cells key =
      none → rawSize ⟨[(KEYS.THEME, "\"dark\"")], true, true⟩ key = 0 :=
  C8_getStorageStats_total ⟨[(KEYS.THEME, "\"dark\"")], true, true⟩ rfl

/-- Claim C9: on a store whose substrate works, getTheme after setTheme
dark returns dark, and getTheme on a fresh store with no stored theme
returns the default light. -/
theorem C9_theme_roundtrip (ls : LocalStorage) (hget : ls.getOk = true)
    (hset : ls.setOk = true) :
    (StorageUtils.getTheme (StorageUtils.setTheme ls "dark")).1 = JSValue.str "dark" ∧
    (StorageUtils.getTheme ⟨[], true, true⟩).1 = JSValue.str "light" := by
  constructor
  · have hs : stringifyJSON (JSValue.str "dark") = "\"dark\"" := by
      simp only [stringifyJSON, stringifyString, escapeChar]
      rfl
    simp only [StorageUtils.setTheme, StorageUtils.setItem, hset, if_true]
    simp only [StorageUtils.getTheme, StorageUtils.getItem, hget, if_true, hs,
      assocLookup_insert_self]
    rfl
  · rfl

/-- Witness for C9 at the fresh store. -/
theorem C9_witness :
    (StorageUtils.getTheme (StorageUtils.setTheme ⟨[], true, true⟩ "dark")).1 =
      JSValue.str "dark" ∧
    (StorageUtils.getTheme ⟨[], true, true⟩).1 = JSValue.str "light" :=
  C9_theme_roundtrip ⟨[], true, true⟩ rfl rfl

/-- Claim C10: on a store whose substrate write fails, addToSearchHistory
still returns the in-memory updated sequence and addToFavorites still
returns the success object with the in-memory updated collection; the
substrate is left unchanged, setItem returns false (a boolean both
callers discard), and the returned values coincide with those of the same
calls on a store whose writes succeed. -/
theorem C10_returns_independent_of_persistence (cells : List (String × String)) (g : Bool)
    (city : String) (h : List String) (location : Location) (now : String)
    (favs : List Favorite)
    (hdech : decodeStringArray (StorageUtils.getSearchHistory ⟨cells, g, false⟩).1 = some h)
    (hdecf : decodeFavorites (StorageUtils.getFavorites ⟨cells, g, false⟩).1 = some favs)
    (hnodup : favs.any (fun fav => jsToLowerCase fav.name == jsToLowerCase location.name) = false) :
    StorageUtils.addToSearchHistory ⟨cells, g, false⟩ city =
      some ⟨⟨cells, g, false⟩, updatedHistoryOf h city,
        (StorageUtils.getSearchHistory ⟨cells, g, false⟩).2 ++
          ["Error writing " ++ KEYS.SEARCH_HISTORY ++ " to localStorage"]⟩ ∧
    StorageUtils.addToFavorites ⟨cells, g, false⟩ location now =
      some ⟨⟨cells, g, false⟩, AddFavResult.success
          (favs ++ [⟨location.name, location.country, location.lat, location.lon, now⟩]),
        (StorageUtils.getFavorites ⟨cells, g, false⟩).2 ++
          ["Error writing " ++ KEYS.FAVORITES ++ " to localStorage"]⟩ ∧
    (∀ key v, (StorageUtils.setItem ⟨cells, g, false⟩ key v).2.1 = false) ∧
    (StorageUtils.addToSearchHistory ⟨cells, g, false⟩ city).map (fun r => r.value) =
      (StorageUtils.addToSearchHistory ⟨cells, g, true⟩ city).map (fun r => r.value) ∧
    (StorageUtils.addToFavorites ⟨cells, g, false⟩ location now).map (fun r => r.value) =
      (StorageUtils.addToFavorites ⟨cells, g, true⟩ location now).map (fun r => r.value) := by
  have hdech2 : decodeStringArray (StorageUtils.getSearchHistory ⟨cells, g, true⟩).1 =
      some h := hdech
  have hdecf2 : decodeFavorites (StorageUtils.getFavorites ⟨cells, g, true⟩).1 =
      some favs := hdecf
  refine ⟨?_, ?_, ?_, ?_, ?_⟩
  · simp only [StorageUtils.addToSearchHistory, hdech, StorageUtils.setItem]
    rfl
  · simp only [StorageUtils.addToFavorites, hdecf, hnodup, StorageUtils.setItem]
    rfl
  · intro key v
    simp [StorageUtils.setItem]
  · simp [StorageUtils.addToSearchHistory, hdech, hdech2]
  · simp [StorageUtils.addToFavorites, hdecf, hdecf2, hnodup]

/-- Witness for C10 at a one-entry history and a one-entry favorites
collection. -/
theorem C10_witness :
    StorageUtils.addToSearchHistory
        ⟨[(KEYS.SEARCH_HISTORY, "[\"Rome\"]"),
          (KEYS.FAVORITES,
            "[\x7b\"name\":\"Paris\",\"country\":\"FR\",\"lat\":48,\"lon\":2,\"addedAt\":\"t0\"\x7d]")],
          true, false⟩ "Oslo" =
      some ⟨⟨[(KEYS.SEARCH_HISTORY, "[\"Rome\"]"),
          (KEYS.FAVORITES,
            "[\x7b\"name\":\"Paris\",\"country\":\"FR\",\"lat\":48,\"lon\":2,\"addedAt\":\"t0\"\x7d]")],
          true, false⟩, updatedHistoryOf ["Rome"] "Oslo",
        (StorageUtils.getSearchHistory
          ⟨[(KEYS.SEARCH_HISTORY, "[\"Rome\"]"),
            (KEYS.FAVORITES,
              "[\x7b\"name\":\"Paris\",\"country\":\"FR\",\"lat\":48,\"lon\":2,\"addedAt\":\"t0\"\x7d]")],
            true, false⟩).2 ++
          ["Error writing " ++ KEYS.SEARCH_HISTORY ++ " to localStorage"]⟩ ∧
    StorageUtils.addToFavorites
        ⟨[(KEYS.SEARCH_HISTORY, "[\"Rome\"]"),
          (KEYS.FAVORITES,
            "[\x7b\"name\":\"Paris\",\"country\":\"FR\",\"lat\":48,\"lon\":2,\"addedAt\":\"t0\"\x7d]")],
          true, false⟩ ⟨"Oslo", "NO", 59, 10⟩ "t1" =
      some ⟨⟨[(KEYS.SEARCH_HISTORY, "[\"Rome\"]"),
          (KEYS.FAVORITES,
            "[\x7b\"name\":\"Paris\",\"country\":\"FR\",\"lat\":48,\"lon\":2,\"addedAt\":\"t0\"\x7d]")],
          true, false⟩, AddFavResult.success
          ([⟨"Paris", "FR", 48, 2, "t0"⟩] ++ [⟨"Oslo", "NO", 59, 10, "t1"⟩]),
        (StorageUtils.getFavorites
          ⟨[(KEYS.SEARCH_HISTORY, "[\"Rome\"]"),
            (KEYS.FAVORITES,
              "[\x7b\"name\":\"Paris\",\"country\":\"FR\",\"lat\":48,\"lon\":2,\"addedAt\":\"t0\"\x7d]")],
            true, false⟩).2 ++
          ["Error writing " ++ KEYS.FAVORITES ++ " to localStorage"]⟩ ∧
    (∀ key v, (StorageUtils.setItem
        ⟨[(KEYS.SEARCH_HISTORY, "[\"Rome\"]"),
          (KEYS.FAVORITES,
            "[\x7b\"name\":\"Paris\",\"country\":\"FR\",\"lat\":48,\"lon\":2,\"addedAt\":\"t0\"\x7d]")],
          true, false⟩ key v).2.1 = false) ∧
    (StorageUtils.addToSearchHistory
        ⟨[(KEYS.SEARCH_HISTORY, "[\"Rome\"]"),
          (KEYS.FAVORITES,
            "[\x7b\"name\":\"Paris\",\"country\":\"FR\",\"lat\":48,\"lon\":2,\"addedAt\":\"t0\"\x7d]")],
          true, false⟩ "Oslo").map (fun r => r.value) =
      (StorageUtils.addToSearchHistory
        ⟨[(KEYS.SEARCH_HISTORY, "[\"Rome\"]"),
          (KEYS.FAVORITES,
            "[\x7b\"name\":\"Paris\",\"country\":\"FR\",\"lat\":48,\"lon\":2,\"addedAt\":\"t0\"\x7d]")],
          true, true⟩ "Oslo").map (fun r => r.value) ∧
    (StorageUtils.addToFavorites
        ⟨[(KEYS.SEARCH_HISTORY, "[\"Rome\"]"),
          (KEYS.FAVORITES,
            "[\x7b\"name\":\"Paris\",\"country\":\"FR\",\"lat\":48,\"lon\":2,\"addedAt\":\"t0\"\x7d]")],
          true, false⟩ ⟨"Oslo", "NO", 59, 10⟩ "t1").map (fun r => r.value) =
      (StorageUtils.addToFavorites
        ⟨[(KEYS.SEARCH_HISTORY, "[\"Rome\"]"),
          (KEYS.FAVORITES,
            "[\x7b\"name\":\"Paris\",\"country\":\"FR\",\"lat\":48,\"lon\":2,\"addedAt\":\"t0\"\x7d]")],
          true, true⟩ ⟨"Oslo", "NO", 59, 10⟩ "t1").map (fun r => r.value) :=
  C10_returns_independent_of_persistence _ true "Oslo" ["Rome"] ⟨"Oslo", "NO", 59, 10⟩ "t1"
    [⟨"Paris", "FR", 48, 2, "t0"⟩] (by decide) (by decide) (by decide)

theorem assocLookup_nil {β : Type} (k : String) : assocLookup ([] : List (String × β)) k = none :=
  rfl

theorem assocLookup_remove_self {β : Type} (xs : List (String × β)) (k : String) :
    assocLookup (assocRemove xs k) k = none := by
  have hall : ∀ p ∈ assocRemove xs k, ¬(p.1 == k) = true := by
    intro p hp
    have := (List.mem_filter.mp hp).2
    simp only [bne_iff_ne, ne_eq] at this
    simp [this]
  simp [assocLookup, List.find?_eq_none.mpr hall]

theorem assocRemove_of_not_mem_keys {β : Type} (xs : List (String × β)) (k : String)
    (hk : k ∉ xs.map Prod.fst) : assocRemove xs k = xs := by
  rw [assocRemove, List.filter_eq_self]
  intro p hp
  have : p.1 ≠ k := fun he => hk (he ▸ List.mem_map_of_mem Prod.fst hp)
  simp [this]

theorem assocRemove_of_lookup_none {β : Type} (xs : List (String × β)) (k : String)
    (hk : assocLookup xs k = none) : assocRemove xs k = xs := by
  rw [assocRemove, List.filter_eq_self]
  intro p hp
  rcases hfind : xs.find? (fun q => q.1 == k) with _ | q
  · have := List.find?_eq_none.mp hfind p hp
    simpa [bne_iff_ne] using this
  · simp [assocLookup, hfind] at hk

theorem mem_keys_assocInsert {β : Type} (xs : List (String × β)) (k a : String) (v : β) :
    a ∈ (assocInsert xs k v).map Prod.fst → a ∈ xs.map Prod.fst ∨ a = k := by
  induction xs with
  | nil =>
    intro ha
    simp [assocInsert] at ha
    exact Or.inr ha
  | cons p rest ih =>
    intro ha
    by_cases h : p.1 == k
    · simp only [assocInsert, h, if_true, List.map_cons, List.mem_cons] at ha
      rcases ha with ha | ha
      · exact Or.inr ha
      · exact Or.inl (List.mem_cons_of_mem _ ha)
    · simp only [assocInsert, h, Bool.false_eq_true, if_false, List.map_cons,
        List.mem_cons] at ha ⊢
      rcases ha with ha | ha
      · exact Or.inl (Or.inl ha)
      · rcases ih ha with hb | hb
        · exact Or.inl (Or.inr hb)
        · exact Or.inr hb

theorem nodup_keys_assocInsert {β : Type} (xs : List (String × β)) (k : String) (v : β) :
    (xs.map Prod.fst).Nodup → ((assocInsert xs k v).map Prod.fst).Nodup := by
  induction xs with
  | nil =>
    intro _
    simp [assocInsert]
  | cons p rest ih =>
    intro hnd
    simp only [List.map_cons, List.nodup_cons] at hnd
    by_cases h : p.1 == k
    · have hpk : p.1 = k := by simpa using h
      simp only [assocInsert, h, if_true, List.map_cons, List.nodup_cons]
      exact ⟨hpk ▸ hnd.1, hnd.2⟩
    · have hpk : p.1 ≠ k := by simpa using h
      simp only [assocInsert, h, Bool.false_eq_true, if_false, List.map_cons,
        List.nodup_cons]
      refine ⟨fun hmem => ?_, ih hnd.2⟩
      rcases mem_keys_assocInsert rest k p.1 v hmem with hb | hb
      · exact hnd.1 hb
      · exact hpk hb

theorem nodup_keys_assocRemove {β : Type} (xs : List (String × β)) (k : String)
    (hnd : (xs.map Prod.fst).Nodup) : ((assocRemove xs k).map Prod.fst).Nodup :=
  ((List.filter_sublist xs).map Prod.fst).nodup hnd

theorem destroyChart_fst (st : ChartUtilsState) (canvasId : String) :
    (ChartUtils.destroyChart st canvasId).1 =
      ⟨assocRemove st.chartInstances canvasId, st.nextId⟩ := by
  cases hl : assocLookup st.chartInstances canvasId with
  | none =>
    rw [assocRemove_of_lookup_none _ _ hl]
    simp only [ChartUtils.destroyChart, hl]
  | some h =>
    simp only [ChartUtils.destroyChart, hl]

theorem foldl_destroy_fst (keys : List String) :
    ∀ (st : ChartUtilsState) (evts : List ChartEvent),
    ((keys.foldl (fun acc id =>
        let r := ChartUtils.destroyChart acc.1 id
        (r.1, acc.2 ++ r.2)) (st, evts)).1) =
      ⟨st.chartInstances.filter (fun p => !(keys.contains p.1)), st.nextId⟩ := by
  induction keys with
  | nil =>
    intro st evts
    simp only [List.foldl_nil, List.contains_nil, Bool.not_false, List.filter_true]
  | cons k ks ih =>
    intro st evts
    rw [List.foldl_cons, ih]
    rw [destroyChart_fst]
    simp only [assocRemove, List.filter_filter]
    congr 1
    apply List.filter_congr
    intro p _
    simp only [List.contains_cons, Bool.not_or, bne]
    rw [Bool.and_comm]

theorem destroyAllCharts_instances (st : ChartUtilsState) :
    (ChartUtils.destroyAllCharts st).1.chartInstances = [] := by
  rw [ChartUtils.destroyAllCharts, foldl_destroy_fst]
  apply List.filter_eq_nil_iff.mpr
  intro p hp
  have hmem : p.1 ∈ st.chartInstances.map Prod.fst := List.mem_map_of_mem Prod.fst hp
  have hcont : (st.chartInstances.map Prod.fst).contains p.1 = true :=
    List.elem_eq_true_of_mem hmem
  simp only [hcont, Bool.not_true, Bool.false_eq_true, not_false_eq_true]

theorem destroyAll_loop_events (xs : List (String × Nat)) :
    ∀ (nid : Nat) (evts : List ChartEvent), (xs.map Prod.fst).Nodup →
    ((xs.map Prod.fst).foldl (fun acc id =>
        let r := ChartUtils.destroyChart acc.1 id
        (r.1, acc.2 ++ r.2)) (⟨xs, nid⟩, evts)) =
      (⟨[], nid⟩, evts ++ xs.map (fun p => ChartEvent.engineDestroy p.2)) := by
  induction xs with
  | nil =>
    intro nid evts _
    simp
  | cons p rest ih =>
    intro nid evts hnd
    simp only [List.map_cons, List.nodup_cons] at hnd
    have hlook : assocLookup (p :: rest) p.1 = some p.2 := by
      rw [assocLookup_cons]
      simp
    have hrem : assocRemove (p :: rest) p.1 = rest := by
      rw [assocRemove]
      simp only [List.filter_cons, bne_self_eq_false, Bool.false_eq_true, if_false]
      exact assocRemove_of_not_mem_keys rest p.1 hnd.1
    have hstep : ChartUtils.destroyChart ⟨p :: rest, nid⟩ p.1 =
        (⟨rest, nid⟩, [ChartEvent.engineDestroy p.2]) := by
      simp only [ChartUtils.destroyChart, hlook, hrem]
    rw [List.map_cons, List.foldl_cons]
    simp only [hstep]
    rw [ih nid (evts ++ [ChartEvent.engineDestroy p.2]) hnd.2]
    simp

theorem destroyAllCharts_events (st : ChartUtilsState) (hwf : registryWF st) :
    ChartUtils.destroyAllCharts st =
      (⟨[], st.nextId⟩, st.chartInstances.map (fun p => ChartEvent.engineDestroy p.2)) := by
  rcases st with ⟨xs, nid⟩
  rw [ChartUtils.destroyAllCharts]
  have := destroyAll_loop_events xs nid [] hwf
  simpa using this

/-- Counterexample to claim C6 as stated: createHumidityChart on an
absent drawing surface returns no handle but emits nothing at all, so no
error reaches the diagnostic sink for the humidity chart kind (the same
holds for the wind kind). -/
theorem C6_counterexample :
    ChartUtils.createHumidityChart [] ⟨[], 0⟩ "chart1" [] false = (⟨[], 0⟩, none, []) := rfl

/-- Claim C6 (amended): when the target drawing surface is absent, every
create call returns no handle and leaves the registry unchanged without
raising; createTemperatureChart additionally reports an error to the
diagnostic sink, while createHumidityChart and createWindChart return
silently. -/
theorem C6_create_missing_canvas (dom : List String) (st : ChartUtilsState)
    (canvasId : String) (forecastData : List ForecastDay) (isDarkMode : Bool)
    (habs : dom.contains canvasId = false) :
    ChartUtils.createTemperatureChart dom st canvasId forecastData isDarkMode =
      (st, none, [ChartEvent.consoleError ("Canvas element " ++ canvasId ++ " not found")]) ∧
    ChartUtils.createHumidityChart dom st canvasId forecastData isDarkMode = (st, none, []) ∧
    ChartUtils.createWindChart dom st canvasId forecastData isDarkMode = (st, none, []) := by
  refine ⟨?_, ?_, ?_⟩ <;>
    simp only [ChartUtils.createTemperatureChart, ChartUtils.createHumidityChart,
      ChartUtils.createWindChart, habs, Bool.not_false, if_true]

/-- Witness for C6 on an empty document. -/
theorem C6_witness :
    ChartUtils.createTemperatureChart [] ⟨[], 0⟩ "chart1" [] false =
      (⟨[], 0⟩, none, [ChartEvent.consoleError ("Canvas element " ++ "chart1" ++ " not found")]) ∧
    ChartUtils.createHumidityChart [] ⟨[], 0⟩ "chart1" [] false = (⟨[], 0⟩, none, []) ∧
    ChartUtils.createWindChart [] ⟨[], 0⟩ "chart1" [] false = (⟨[], 0⟩, none, []) :=
  C6_create_missing_canvas [] ⟨[], 0⟩ "chart1" [] false (by decide)

/-- Claim C7: the registry holds at most one live handle per identifier
(uniqueness of keys is preserved by every create and destroy); a create
on an identifier that already holds a handle destroys that handle first,
before the engine creates the replacement, and stores the replacement
under the identifier; destroyChart destroys the handle and removes the
entry; destroyAllCharts destroys every handle and empties the registry. -/
theorem C7_registry_lifecycle :
    (∀ dom st canvasId forecastData isDarkMode h, dom.contains canvasId = true →
      assocLookup st.chartInstances canvasId = some h →
      ChartUtils.createTemperatureChart dom st canvasId forecastData isDarkMode =
        (⟨assocInsert st.chartInstances canvasId st.nextId, st.nextId + 1⟩, some st.nextId,
          [ChartEvent.engineDestroy h,
            ChartEvent.engineCreate st.nextId (temperatureConfig forecastData isDarkMode)]) ∧
      assocLookup
        (ChartUtils.createTemperatureChart dom st canvasId forecastData
          isDarkMode).1.chartInstances canvasId = some st.nextId) ∧
    (∀ dom st canvasId forecastData isDarkMode h, dom.contains canvasId = true →
      assocLookup st.chartInstances canvasId = some h →
      ChartUtils.createHumidityChart dom st canvasId forecastData isDarkMode =
        (⟨assocInsert st.chartInstances canvasId st.nextId, st.nextId + 1⟩, some st.nextId,
          [ChartEvent.engineDestroy h,
            ChartEvent.engineCreate st.nextId (humidityConfig forecastData isDarkMode)])) ∧
    (∀ dom st canvasId forecastData isDarkMode h, dom.contains canvasId = true →
      assocLookup st.chartInstances canvasId = some h →
      ChartUtils.createWindChart dom st canvasId forecastData isDarkMode =
        (⟨assocInsert st.chartInstances canvasId st.nextId, st.nextId + 1⟩, some st.nextId,
          [ChartEvent.engineDestroy h,
            ChartEvent.engineCreate st.nextId (windConfig forecastData isDarkMode)])) ∧
    (∀ st canvasId h, assocLookup st.chartInstances canvasId = some h →
      ChartUtils.destroyChart st canvasId =
        (⟨assocRemove st.chartInstances canvasId, st.nextId⟩, [ChartEvent.engineDestroy h]) ∧
      assocLookup (ChartUtils.destroyChart st canvasId).1.chartInstances canvasId = none) ∧
    (∀ st canvasId, assocLookup st.chartInstances canvasId = none →
      ChartUtils.destroyChart st canvasId = (st, [])) ∧
    (∀ st : ChartUtilsState, (ChartUtils.destroyAllCharts st).1.chartInstances = []) ∧
    (∀ st : ChartUtilsState, registryWF st →
      (ChartUtils.destroyAllCharts st).2 =
        st.chartInstances.map (fun p => ChartEvent.engineDestroy p.2)) ∧
    (∀ dom st canvasId forecastData isDarkMode, registryWF st →
      registryWF (ChartUtils.createTemperatureChart dom st canvasId forecastData isDarkMode).1 ∧
      registryWF (ChartUtils.createHumidityChart dom st canvasId forecastData isDarkMode).1 ∧
      registryWF (ChartUtils.createWindChart dom st canvasId forecastData isDarkMode).1) ∧
    (∀ st canvasId, registryWF st → registryWF (ChartUtils.destroyChart st canvasId).1) := by
  have hcommon : ∀ st canvasId config h, assocLookup st.chartInstances canvasId = some h →
      createChartCommon st canvasId config =
        (⟨assocInsert st.chartInstances canvasId st.nextId, st.nextId + 1⟩, some st.nextId,
          [ChartEvent.engineDestroy h, ChartEvent.engineCreate st.nextId config]) := by
    intro st canvasId config h hl
    simp [createChartCommon, hl]
  refine ⟨?_, ?_, ?_, ?_, ?_, ?_, ?_, ?_, ?_⟩
  · intro dom st canvasId forecastData isDarkMode h hdom hl
    constructor
    · simp only [ChartUtils.createTemperatureChart, hdom, Bool.not_true, Bool.false_eq_true,
        if_false, hcommon st canvasId _ h hl]
    · simp only [ChartUtils.createTemperatureChart, hdom, Bool.not_true, Bool.false_eq_true,
        if_false, hcommon st canvasId _ h hl]
      exact assocLookup_insert_self _ _ _
  · intro dom st canvasId forecastData isDarkMode h hdom hl
    simp only [ChartUtils.createHumidityChart, hdom, Bool.not_true, Bool.false_eq_true,
      if_false, hcommon st canvasId _ h hl]
  · intro dom st canvasId forecastData isDarkMode h hdom hl
    simp only [ChartUtils.createWindChart, hdom, Bool.not_true, Bool.false_eq_true,
      if_false, hcommon st canvasId _ h hl]
  · intro st canvasId h hl
    refine ⟨by simp only [ChartUtils.destroyChart, hl], ?_⟩
    rw [destroyChart_fst]
    exact assocLookup_remove_self _ _
  · intro st canvasId hl
    simp only [ChartUtils.destroyChart, hl]
  · exact destroyAllCharts_instances
  · intro st hwf
    rw [destroyAllCharts_events st hwf]
  · intro dom st canvasId forecastData isDarkMode hwf
    refine ⟨?_, ?_, ?_⟩ <;>
      simp only [ChartUtils.createTemperatureChart, ChartUtils.createHumidityChart,
        ChartUtils.createWindChart] <;>
      by_cases hdom : dom.contains canvasId <;>
      simp only [hdom, Bool.not_true, Bool.not_false, Bool.false_eq_true, if_false, if_true] <;>
      first
        | exact hwf
        | exact nodup_keys_assocInsert _ _ _ hwf
  · intro st canvasId hwf
    rw [registryWF, destroyChart_fst]
    exact nodup_keys_assocRemove _ _ hwf

/-- Witness for C7: replacing the chart under cv1 destroys handle 0
before creating handle 1, and the destroy operations empty a two-entry
registry. -/
theorem C7_witness :
    (ChartUtils.createTemperatureChart ["cv1"] ⟨[("cv1", 0)], 1⟩ "cv1" [] false =
      (⟨assocInsert ([("cv1", 0)] : List (String × Nat)) "cv1" 1, 2⟩, some 1,
        [ChartEvent.engineDestroy 0,
          ChartEvent.engineCreate 1 (temperatureConfig [] false)]) ∧
      assocLookup (ChartUtils.createTemperatureChart ["cv1"] ⟨[("cv1", 0)], 1⟩ "cv1" []
        false).1.chartInstances "cv1" = some 1) ∧
    (ChartUtils.destroyAllCharts ⟨[("a", 0), ("b", 1)], 2⟩).1.chartInstances = [] ∧
    (ChartUtils.destroyAllCharts ⟨[("a", 0), ("b", 1)], 2⟩).2 =
      ([("a", 0), ("b", 1)] : List (String × Nat)).map
        (fun p => ChartEvent.engineDestroy p.2) :=
  ⟨C7_registry_lifecycle.1 ["cv1"] ⟨[("cv1", 0)], 1⟩ "cv1" [] false 0 (by decide) (by decide),
    C7_registry_lifecycle.2.2.2.2.2.1 ⟨[("a", 0), ("b", 1)], 2⟩,
    C7_registry_lifecycle.2.2.2.2.2.2.1 ⟨[("a", 0), ("b", 1)], 2⟩
      (by unfold registryWF; decide)⟩
